import Mathlib

/-!
Shallow embedding of the `pdf-image-classifier` repository.

Two classification strategies are embedded:
* `src/figure_classifier.py` — feature extraction plus an ordered rule-based
  decision list (`FigureClassifier`);
* `src/free_classifier.py` — a caption-keyword classifier with visual
  reweighting and fallbacks (`FreeFigureClassifier`).

Machine vision primitives (OpenCV Canny / Hough / contour passes, numpy
means and Pearson correlations) are not pure arithmetic of the source, so
their raw outputs are inputs of the embedding (`RawVision`, `ImgMeta`);
every piece of arithmetic, filtering, thresholding and string handling that
the Python source performs on those outputs is embedded faithfully.
Python floats are embedded as rationals; Python exceptions are embedded as
`Except` values.
-/

/-! ### String helpers mirroring the Python string operations used -/

/-- `prefixSeq n h` decides whether `n` is a prefix of `h` (plain recursion,
used to embed Python's substring operator). -/
def prefixSeq : List Char → List Char → Bool
  | [], _ => true
  | _ :: _, [] => false
  | a :: as, b :: bs => a == b && prefixSeq as bs

/-- `containsSeq n h` decides whether `n` occurs contiguously in `h`. -/
def containsSeq : List Char → List Char → Bool
  | n, [] => n.isEmpty
  | n, h@(_ :: t) => prefixSeq n h || containsSeq n t

/-- Python `needle in hay` (contiguous substring test). -/
def containsSub (hay needle : String) : Bool :=
  containsSeq needle.toList hay.toList

/-- Python `str.lower()` (the repository only feeds ASCII captions). -/
def strLower (s : String) : String :=
  String.mk (s.toList.map Char.toLower)

/-- Python `str.replace('_', ' ')` as used on category keys. -/
def replUnderscore (s : String) : String :=
  String.mk (s.toList.map (fun c => if c = '_' then ' ' else c))

/-- Worker for `pyTitle`: the boolean records whether the previous character
was alphabetic, matching Python `str.title()` semantics. -/
def pyTitleGo : Bool → List Char → List Char
  | _, [] => []
  | prev, c :: cs =>
      (if c.isAlpha then (if prev then c.toLower else c.toUpper) else c) ::
        pyTitleGo c.isAlpha cs

/-- Python `str.title()`. -/
def pyTitle (s : String) : String :=
  String.mk (pyTitleGo false s.toList)

/-- The part of a rendered `type` string after its leading glyph
(everything after the first space). -/
def labelAfterGlyph (s : String) : String :=
  String.mk ((s.toList.dropWhile (fun c => c != ' ')).drop 1)

/-- Python `round(q, 1)`.  Mathlib `round` breaks ties upward while Python
breaks ties to even, but every value this repository rounds is an exact
multiple of `1/10`, where the two agree. -/
def round1 (q : ℚ) : ℚ :=
  ((round (q * 10) : ℤ) : ℚ) / 10

/-- Rendering of `f string` interpolation of a float with two decimals
(`:.2f`), used only inside a presentational `reasoning` string; embedded up
to the rounding of the underlying binary float. -/
def fmt2 (q : ℚ) : String :=
  let n : ℤ := round (q * 100)
  toString (n / 100) ++ "." ++
    (if n.natAbs % 100 < 10 then "0" else "") ++ toString (n.natAbs % 100)

/-! ### `src/figure_classifier.py` — data extracted from the color block -/

/-- Quantities `_extract_features` computes only for 3-channel arrays:
`unique_colors` (count of distinct RGB rows), HSV mean/variance and the
seeded-KMeans cluster count.  A grayscale (2-D) array has no such data. -/
structure ColorRaw where
  uniqueColors : ℕ
  saturationMean : ℚ
  hueVar : ℚ
  dominantColorCount : ℕ
  deriving DecidableEq

/-- One external contour as consumed by `_estimate_text_ratio`:
`cv2.contourArea` result plus the bounding-rectangle width and height. -/
structure TextContour where
  area : ℚ
  w : ℕ
  h : ℕ
  deriving DecidableEq

/-- One external contour as consumed by `_detect_rectangles`:
`cv2.contourArea` result plus the vertex count of `cv2.approxPolyDP`. -/
structure RectContour where
  area : ℚ
  approxVertices : ℕ
  deriving DecidableEq

/-- Raw outputs of the vision primitives that `_extract_features` and
`_is_scatter_plot` consume.  `none` embeds a detector returning `None`
(`HoughLinesP` / `HoughCircles`) or a NaN correlation (`corrcoef`).
`circleArea` is the already-summed `sum(np.pi*r*r)` of `_detect_circles`
(the only π-weighted quantity; its division by the image area stays in the
embedding). -/
structure RawVision where
  h : ℕ
  w : ℕ
  brightness : ℚ
  contrast : ℚ
  edgeCount : ℕ
  colorData : Option ColorRaw
  textContours : List TextContour
  lineCount : Option ℕ
  circleArea : Option ℚ
  rectContours : List RectContour
  corrH : Option ℚ
  corrV : Option ℚ
  scatterCount : Option ℕ
  deriving DecidableEq

/-- The 14-field feature vector of `_extract_features`.  Fields named
`..Rat` embed the source's `.._ratio` fields. -/
structure FeatureVector where
  aspectRat : ℚ
  brightness : ℚ
  contrast : ℚ
  edgeDensity : ℚ
  colorDiversity : ℚ
  textRat : ℚ
  lineDensity : ℚ
  circleRat : ℚ
  rectRat : ℚ
  symmetryH : ℚ
  symmetryV : ℚ
  dominantColorCount : ℕ
  saturationMean : ℚ
  hueVar : ℚ
  deriving DecidableEq

/-- `_calculate_symmetry` tail: `max(0, corr) if not np.isnan(corr) else 0`. -/
def symOf : Option ℚ → ℚ
  | none => 0
  | some c => max 0 c

/-- `_estimate_text_ratio`: sum the areas of contours with
`h < 50 and w > 20 and area > 100`, divided by `height * width`. -/
def textRatOf (rv : RawVision) : ℚ :=
  (((rv.textContours.filter
      (fun t => decide (t.h < 50) && decide (t.w > 20) && decide (t.area > 100))).map
      (fun t => t.area)).sum) / ((rv.h : ℚ) * rv.w)

/-- `_detect_rectangles`: sum the areas of contours whose polygonal
approximation has exactly four vertices, divided by `height * width`. -/
def rectRatOf (rv : RawVision) : ℚ :=
  (((rv.rectContours.filter (fun c => decide (c.approxVertices = 4))).map
      (fun c => c.area)).sum) / ((rv.h : ℚ) * rv.w)

/-- `_detect_lines`: `len(lines) / (h*w/10000)` when lines were found,
else `0`. -/
def lineDensityOf (rv : RawVision) : ℚ :=
  match rv.lineCount with
  | none => 0
  | some n => (n : ℚ) / (((rv.h : ℚ) * rv.w) / 10000)

/-- `_is_scatter_plot`: `circles is not None and len(circles[0]) > 20`. -/
def scatterFlag : Option ℕ → Bool
  | none => false
  | some n => decide (n > 20)

/-- `_extract_features`, assembled from the raw vision outputs. -/
def extractFeatures (rv : RawVision) : FeatureVector :=
  let area : ℚ := (rv.h : ℚ) * rv.w
  { aspectRat := (rv.w : ℚ) / rv.h
    brightness := rv.brightness
    contrast := rv.contrast
    edgeDensity := (rv.edgeCount : ℚ) / area
    colorDiversity :=
      match rv.colorData with
      | none => 0
      | some c => (c.uniqueColors : ℚ) / area
    textRat := textRatOf rv
    lineDensity := lineDensityOf rv
    circleRat :=
      match rv.circleArea with
      | none => 0
      | some a => a / area
    rectRat := rectRatOf rv
    symmetryH := symOf rv.corrH
    symmetryV := symOf rv.corrV
    dominantColorCount :=
      match rv.colorData with
      | none => 1
      | some c => c.dominantColorCount
    saturationMean :=
      match rv.colorData with
      | none => 0
      | some c => c.saturationMean
    hueVar :=
      match rv.colorData with
      | none => 0
      | some c => c.hueVar }

/-- `_rule_based_classification`: the ordered first-match decision chain.
The returned rational is the `confidence_score` the source stores on the
instance; `scatter` is the outcome of the `_is_scatter_plot` probe. -/
def ruleBasedClassification (f : FeatureVector) (scatter : Bool) : String × ℚ :=
  if f.circleRat > 0.3 then ("pie_chart", 0.8)
  else if f.rectRat > 0.4 ∧ f.textRat < 0.3 then ("bar_chart", 0.7)
  else if f.lineDensity > 0.3 ∧ f.rectRat < 0.2 then ("line_graph", 0.7)
  else if f.textRat > 0.4 then ("table", 0.6)
  else if f.edgeDensity > 0.2 ∧ f.rectRat > 0.2 then ("flowchart", 0.6)
  else if f.edgeDensity < 0.1 ∧ f.colorDiversity > 0.1 then ("photograph", 0.6)
  else if f.symmetryH > 0.7 ∨ f.symmetryV > 0.7 then ("scientific_diagram", 0.6)
  else if scatter then ("scatter_plot", 0.7)
  else if f.colorDiversity > 0.05 ∧ 0.1 < f.edgeDensity ∧ f.edgeDensity < 0.3 ∧
      f.symmetryH < 0.3 ∧ f.symmetryV < 0.3 then ("map", 0.6)
  else ("diagram", 0.4)

/-- The `_map_to_label` table. -/
def labelTable : List (String × String) :=
  [("bar_chart", "📊 Bar Chart"),
   ("line_graph", "📈 Line Graph"),
   ("pie_chart", "🟢 Pie Chart"),
   ("timeline", "⏰ Timeline"),
   ("photograph", "📷 Photograph"),
   ("table", "📋 Table"),
   ("scatter_plot", "🔵 Scatter Plot"),
   ("flowchart", "📐 Flowchart"),
   ("scientific_diagram", "📐 Scientific Diagram"),
   ("map", "🗺️ Map"),
   ("diagram", "📐 Other Diagram")]

/-- `_map_to_label`: `mapping.get(category, "📐 Other Diagram")`. -/
def mapToLabel (category : String) : String :=
  (labelTable.lookup category).getD "📐 Other Diagram"

/-- The `_get_brief_description` table. -/
def descTable : List (String × String) :=
  [("bar_chart", "Vertical or horizontal bars used to compare values."),
   ("line_graph", "Continuous line to show trends over time or data."),
   ("pie_chart", "Circular chart divided into slices."),
   ("timeline", "Horizontal layout showing chronological events."),
   ("photograph", "High color and texture variation, likely image capture."),
   ("table", "Grid of cells with rows and columns of text."),
   ("scatter_plot", "Many small dots or shapes scattered across axes."),
   ("flowchart", "Connected shapes representing steps or decisions."),
   ("scientific_diagram", "Symmetric, structured layout with labeled parts."),
   ("map", "Irregular shapes and colors suggest geographic layout."),
   ("diagram", "Generic illustration, often grayscale or text-heavy.")]

/-- `_get_brief_description` with its default string. -/
def briefDescription (category : String) : String :=
  (descTable.lookup category).getD "Grayscale content, likely diagram or text"

/-- The dictionary `FigureClassifier.classify_figure` returns. -/
structure RuleResult where
  type : String
  confidence : ℚ
  description : String
  reasoning : String
  deriving DecidableEq

/-- `FigureClassifier.classify_figure`.  The argument is the outcome of the
`try` body's fallible extraction (the vision library may throw); the
`except` branch is the `Except.error` case. -/
def ruleClassifyFigure : Except String RawVision → RuleResult
  | Except.error e =>
      { type := "📐 Other Diagram"
        confidence := 30
        description := "Grayscale content, likely diagram or text"
        reasoning := "Error during classification: " ++ e }
  | Except.ok rv =>
      let f := extractFeatures rv
      let r := ruleBasedClassification f (scatterFlag rv.scatterCount)
      { type := mapToLabel r.1
        confidence := round1 (r.2 * 100)
        description := briefDescription r.1
        reasoning := "Rule-based decision based on visual features: " ++ r.1 }

/-! ### Decision list written from the spec's rule table (for C1) -/

/-- Modelled from the spec's words: the ten-rule table of §4.2 as an ordered
list of (predicate, category, confidence) entries; rule 10 is the default
returned by `firstMatchEval` on an empty remainder. -/
def specDecisionList : List ((FeatureVector → Bool → Bool) × String × ℚ) :=
  [(fun f _ => decide (f.circleRat > 0.3), "pie_chart", 0.8),
   (fun f _ => decide (f.rectRat > 0.4 ∧ f.textRat < 0.3), "bar_chart", 0.7),
   (fun f _ => decide (f.lineDensity > 0.3 ∧ f.rectRat < 0.2), "line_graph", 0.7),
   (fun f _ => decide (f.textRat > 0.4), "table", 0.6),
   (fun f _ => decide (f.edgeDensity > 0.2 ∧ f.rectRat > 0.2), "flowchart", 0.6),
   (fun f _ => decide (f.edgeDensity < 0.1 ∧ f.colorDiversity > 0.1), "photograph", 0.6),
   (fun f _ => decide (f.symmetryH > 0.7 ∨ f.symmetryV > 0.7), "scientific_diagram", 0.6),
   (fun _ scatter => scatter, "scatter_plot", 0.7),
   (fun f _ => decide (f.colorDiversity > 0.05 ∧ 0.1 < f.edgeDensity ∧
      f.edgeDensity < 0.3 ∧ f.symmetryH < 0.3 ∧ f.symmetryV < 0.3), "map", 0.6)]

/-- First-match-wins evaluation of a decision list; the exhausted case is
the spec's rule 10 default `(diagram, 0.4)`. -/
def firstMatchEval : List ((FeatureVector → Bool → Bool) × String × ℚ) →
    FeatureVector → Bool → String × ℚ
  | [], _, _ => ("diagram", 0.4)
  | (p, c, q) :: rest, f, b => if p f b then (c, q) else firstMatchEval rest f b

/-! ### `src/free_classifier.py` embedding -/

/-- Color-dependent raw data of `FreeFigureClassifier`'s numpy passes on a
3-D array: the distinct-RGB-row count and the `np.sum(edges > 0)` count of
`_simple_edge_detection`. -/
structure ColorMeta where
  uniqueColors : ℕ
  edgeCount : ℕ
  deriving DecidableEq

/-- Raw image data consumed by the caption classifier's local analyses:
shape, grayscale-vs-color (2-D arrays carry `none`), and `np.mean` of the
array. -/
structure ImgMeta where
  h : ℕ
  w : ℕ
  color : Option ColorMeta
  brightness : ℚ
  deriving DecidableEq

/-- The `figure_categories` keyword table, in insertion order. -/
def figureCategories : List (String × List String) :=
  [("bar_chart", ["bar chart", "bar graph", "column chart", "histogram", "bars"]),
   ("pie_chart", ["pie chart", "pie graph", "circular chart", "donut chart"]),
   ("line_graph", ["line chart", "line graph", "trend", "curve", "time series"]),
   ("scatter_plot", ["scatter plot", "scatter chart", "dots", "points", "correlation"]),
   ("histogram", ["histogram", "distribution", "frequency", "bins"]),
   ("box_plot", ["box plot", "boxplot", "whisker", "quartile"]),
   ("heatmap", ["heatmap", "heat map", "intensity", "color map", "gradient"]),
   ("flowchart", ["flowchart", "flow chart", "process", "workflow", "diagram"]),
   ("organizational_chart", ["organizational chart", "org chart", "hierarchy", "structure"]),
   ("network_diagram", ["network", "graph", "nodes", "connections", "tree"]),
   ("scientific_diagram", ["molecule", "chemical", "formula", "scientific", "laboratory"]),
   ("medical_diagram", ["anatomy", "medical", "body", "organ", "health"]),
   ("engineering_diagram", ["circuit", "schematic", "technical", "blueprint", "engineering"]),
   ("map", ["map", "geographic", "location", "street", "geography", "satellite"]),
   ("floor_plan", ["floor plan", "blueprint", "layout", "room", "building"]),
   ("timeline", ["timeline", "chronology", "sequence", "history", "events"]),
   ("table", ["table", "grid", "rows", "columns", "data", "spreadsheet"]),
   ("infographic", ["infographic", "information", "visual", "statistics"]),
   ("photograph", ["photo", "picture", "image", "real", "camera", "scene"]),
   ("screenshot", ["screenshot", "screen", "interface", "software", "application"]),
   ("logo", ["logo", "brand", "symbol", "emblem", "company"]),
   ("chart_other", ["chart", "graph", "visualization", "data"]),
   ("diagram_other", ["diagram", "illustration", "drawing", "figure"]),
   ("unknown", ["unclear", "unknown", "indeterminate"])]

/-- The category keys: the spec's closed enumeration as the keyword
classifier knows it. -/
def categoryKeys : List String :=
  figureCategories.map Prod.fst

/-- The `figure_emojis` glyph table. -/
def figureEmojis : List (String × String) :=
  [("bar_chart", "📊"),
   ("pie_chart", "🥧"),
   ("line_graph", "📈"),
   ("scatter_plot", "📉"),
   ("histogram", "📊"),
   ("box_plot", "📦"),
   ("heatmap", "🌡️"),
   ("flowchart", "🔁"),
   ("organizational_chart", "🗂️"),
   ("network_diagram", "🔗"),
   ("scientific_diagram", "🧪"),
   ("medical_diagram", "🫀"),
   ("engineering_diagram", "📐"),
   ("map", "🗺️"),
   ("floor_plan", "🏠"),
   ("timeline", "🕒"),
   ("table", "📋"),
   ("infographic", "📌"),
   ("photograph", "📷"),
   ("screenshot", "🖥️"),
   ("logo", "🚩"),
   ("chart_other", "🔢"),
   ("diagram_other", "📝"),
   ("unknown", "❓")]

/-- The `type` string `classify_figure` injects:
`figure_emojis.get(c, '❓') + ' ' + c.replace('_',' ').title()`. -/
def renderFree (c : String) : String :=
  (figureEmojis.lookup c).getD "❓" ++ " " ++ pyTitle (replUnderscore c)

/-- `sum(len(w) for w in ws if w in dl)` for one category's keyword list. -/
def keywordScore (dl : String) (ws : List String) : ℕ :=
  (ws.map (fun w => if containsSub dl w then w.length else 0)).sum

/-- The score dictionary of `_classify_from_description` after discarding
zero scores, in the table's insertion order. -/
def positiveScores (dl : String) : List (String × ℕ) :=
  (figureCategories.map (fun p => (p.1, keywordScore dl p.2))).filter
    (fun p => decide (p.2 > 0))

/-- The bonus `_enhance_classification_with_analysis` adds to a category
already present in the score dictionary. -/
def bonus (m : ImgMeta) (k : String) : ℕ :=
  let ar : ℚ := (m.w : ℚ) / m.h
  (if 0.8 ≤ ar ∧ ar ≤ 1.5 ∧ ["bar_chart", "line_graph", "scatter_plot"].contains k
    then 5 else 0) +
  (if ar > 2 ∧ ["timeline", "flowchart"].contains k then 8 else 0) +
  (match m.color with
   | none => 0
   | some c =>
      let cd : ℚ := (c.uniqueColors : ℚ) / ((m.h : ℚ) * m.w)
      if cd > 0.1 ∧ ["photograph", "infographic", "map"].contains k then 6
      else if ¬(cd > 0.1) ∧ cd < 0.01 ∧ ["bar_chart", "line_graph"].contains k then 4
      else 0)

/-- `_enhance_classification_with_analysis` (its `except` branch returns the
scores unchanged and is unreachable in the pure embedding). -/
def enhanceScores (m : ImgMeta) (scores : List (String × ℕ)) : List (String × ℕ) :=
  scores.map (fun p => (p.1, p.2 + bonus m p.1))

/-- Python `max(enhanced.items(), key=lambda x: x[1])`: the first pair with
the maximal score, `none` on an empty dictionary. -/
def maxPair : List (String × ℕ) → Option (String × ℕ)
  | [] => none
  | x :: xs => some (xs.foldl (fun b a => if a.2 > b.2 then a else b) x)

/-- `_extract_visual_elements`. -/
def visualElements (description classification : String) : List String :=
  let base : List String :=
    if containsSub classification "chart" || containsSub classification "graph" then
      ["data visualization", "axes", "labels"]
    else if containsSub classification "diagram" then ["shapes", "connectors"]
    else if classification = "photograph" then ["real objects", "natural lighting"]
    else []
  let elements : List String :=
    if description ≠ "" then
      let dl := strLower description
      base ++
        (if containsSub dl "text" then ["text content"] else []) ++
        (if containsSub dl "color" then ["varied colors"] else []) ++
        (if containsSub dl "line" then ["linear elements"] else [])
    else base
  if elements = [] then ["visual content"] else elements.take 5

/-- `_generate_description`. -/
def generateDescription (classification original : String) : String :=
  let readable := replUnderscore classification
  if original ≠ "" ∧ ¬(["visual content", "image with visual elements"].contains original)
  then pyTitle readable ++ ". " ++ original
  else pyTitle readable

/-- The dictionary `_extract_visual_elements`'s results live in. -/
structure FreeDetails where
  visualElements : List String
  analysisMethod : String
  deriving DecidableEq

/-- The dictionary `FreeFigureClassifier` returns.  `type` is `Option`
because only `classify_figure`'s happy path injects that key; the
`_fallback_classification` dictionary has no `type` entry. -/
structure FreeResult where
  type : Option String
  classification : String
  confidence : ℚ
  description : String
  details : FreeDetails
  reasoning : String
  deriving DecidableEq

/-- `_fallback_classification`. -/
def fallbackClassification : FreeResult :=
  { type := none
    classification := "unknown"
    confidence := 0.3
    description := "Could not classify figure reliably"
    details := { visualElements := ["visual content"]
                 analysisMethod := "Fallback classification" }
    reasoning := "No meaningful description or features available" }

/-- The `(classification, confidence)` chain of `_classify_by_visual_analysis`. -/
def visualPick (m : ImgMeta) : String × ℚ :=
  let ar : ℚ := (m.w : ℚ) / m.h
  match m.color with
  | some c =>
      let cd : ℚ := (c.uniqueColors : ℚ) / ((m.h : ℚ) * m.w)
      if cd > 0.1 then ("photograph", 0.6)
      else if ar > 2 then ("timeline", 0.5)
      else if 0.8 ≤ ar ∧ ar ≤ 1.2 then ("chart_other", 0.5)
      else ("diagram_other", 0.4)
  | none => ("diagram_other", 0.4)

/-- `_classify_by_visual_analysis` (the `description` parameter is unused in
the source as well; its `except` branch is unreachable in the pure
embedding). -/
def classifyByVisualAnalysis (m : ImgMeta) (description : String) : FreeResult :=
  let p := visualPick m
  { type := none
    classification := p.1
    confidence := p.2
    description := "Visual analysis suggests a " ++ replUnderscore p.1
    details := { visualElements := ["visual content"]
                 analysisMethod := "Fallback visual analysis" }
    reasoning := "No matching description, classified by aspect ratio " ++
      fmt2 ((m.w : ℚ) / m.h) }

/-- `_classify_from_description`.  A `none` description embeds Python
`None`, on which `description.lower()` raises `AttributeError`; the raise is
the `Except.error` outcome. -/
def classifyFromDescription (description : Option String) (m : ImgMeta) :
    Except String FreeResult :=
  match description with
  | none => Except.error "AttributeError: NoneType has no attribute lower"
  | some d =>
    let dl := strLower d
    let enhanced := enhanceScores m (positiveScores dl)
    match maxPair enhanced with
    | some best =>
        Except.ok
          { type := none
            classification := best.1
            confidence := min 0.95 (0.5 + (best.2 : ℚ) / 20)
            description := generateDescription best.1 d
            details := { visualElements := visualElements d best.1
                         analysisMethod := "Free local + HuggingFace analysis" }
            reasoning := "Classified as " ++ best.1 ++ " using description \x27" ++
              d ++ "\x27" }
    | none => Except.ok (classifyByVisualAnalysis m d)

/-- One element of the captioning service's JSON list.  `generatedText`:
`none` embeds a missing `generated_text` key (so `.get` yields `''`),
`some none` embeds an explicit JSON `null` (so `.get` yields `None`),
`some (some s)` a string. -/
structure CaptionItem where
  generatedText : Option (Option String)
  deriving DecidableEq

/-- `result[0].get('generated_text', '')`. -/
def itemText (it : CaptionItem) : Option String :=
  match it.generatedText with
  | none => some ""
  | some v => v

/-- The captioning service's reply: HTTP status and decoded JSON list. -/
structure CaptionResponse where
  status : ℕ
  body : List CaptionItem
  deriving DecidableEq

/-- The word list `_analyze_image_locally` builds (a 2-D array forces
`color_diversity = 0` and `edge_density = 0` exactly as the source's `else`
branch does). -/
def localWords (m : ImgMeta) : List String :=
  let ar : ℚ := (m.w : ℚ) / m.h
  let cd : ℚ :=
    match m.color with
    | none => 0
    | some c => (c.uniqueColors : ℚ) / ((m.h : ℚ) * m.w)
  let ed : ℚ :=
    match m.color with
    | none => 0
    | some c => (c.edgeCount : ℚ) / ((m.h : ℚ) * m.w)
  (if ar > 1.5 then ["wide"] else if ar < 0.7 then ["tall"] else []) ++
  (if cd > 0.1 then ["colorful"] else if cd < 0.01 then ["simple"] else []) ++
  [if ed > 0.2 then "detailed diagram" else if ed > 0.1 then "chart" else "image"] ++
  (if m.brightness > 200 then ["bright"] else if m.brightness < 100 then ["dark"] else [])

/-- `_analyze_image_locally`: `" ".join(desc) if desc else "visual content"`
(its `except` branch is unreachable in the pure embedding). -/
def analyzeImageLocally (m : ImgMeta) : String :=
  if localWords m = [] then "visual content"
  else String.intercalate " " (localWords m)

/-- `_get_image_description`.  The argument embeds the outcome of the
network call: `Except.error` for a timeout or network exception, otherwise
the decoded response. -/
def getImageDescription (resp : Except String CaptionResponse) (m : ImgMeta) :
    Option String :=
  match resp with
  | Except.error _ => some (analyzeImageLocally m)
  | Except.ok r =>
      if r.status = 200 then
        match r.body with
        | it :: _ => itemText it
        | [] => some (analyzeImageLocally m)
      else some (analyzeImageLocally m)

/-- `FreeFigureClassifier.classify_figure`: obtain a description, classify,
inject the rendered `type`; any raise inside collapses to
`_fallback_classification` (which carries no `type`). -/
def classifyFigureFree (resp : Except String CaptionResponse) (m : ImgMeta) :
    FreeResult :=
  match classifyFromDescription (getImageDescription resp m) m with
  | Except.error _ => fallbackClassification
  | Except.ok r => { r with type := some (renderFree r.classification) }

/-- The `classification` field of a non-raising outcome. -/
def classOf : Except String FreeResult → Option String
  | Except.ok r => some r.classification
  | Except.error _ => none

/-- The `confidence` field of a non-raising outcome. -/
def confOf : Except String FreeResult → Option ℚ
  | Except.ok r => some r.confidence
  | Except.error _ => none

/-! ### Concrete inputs used by counterexamples and witnesses -/

/-- A 2×1 grayscale image: aspect ratio 1/2, so no visual bonus fires and
the visual fallback is exercised on its `else` branches. -/
def neutralMeta : ImgMeta :=
  { h := 2, w := 1, color := none, brightness := 128 }

/-- A 1×3 grayscale image: very wide (aspect ratio 3) but 2-D. -/
def wideGray : ImgMeta :=
  { h := 1, w := 3, color := none, brightness := 0 }

/-- A 1×3 color image with a single distinct color: color diversity 1/3. -/
def wideColor : ImgMeta :=
  { h := 1, w := 3, color := some { uniqueColors := 1, edgeCount := 0 },
    brightness := 0 }

/-- A successful captioning reply carrying a bar-chart caption. -/
def respBar : Except String CaptionResponse :=
  Except.ok
    { status := 200
      body := [{ generatedText := some (some "A bar chart comparing sales") }] }

/-- HTTP 200 whose first element has `generated_text: null`. -/
def respNullText : Except String CaptionResponse :=
  Except.ok { status := 200, body := [{ generatedText := some none }] }

/-- HTTP 200 whose first element has `generated_text: ""`. -/
def respEmptyText : Except String CaptionResponse :=
  Except.ok { status := 200, body := [{ generatedText := some (some "") }] }

/-- HTTP 200 whose first element lacks the `generated_text` key. -/
def respMissingText : Except String CaptionResponse :=
  Except.ok { status := 200, body := [{ generatedText := none }] }

/-- A non-success captioning reply. -/
def resp500 : CaptionResponse :=
  { status := 500, body := [] }

/-- Raw vision outputs of a 1×1 RGB image: one distinct color, and every
detector pass empty (Canny finds no gradient, Hough and `findContours`
nothing on a single pixel, `corrcoef` of empty halves is NaN). -/
def raw1x1Color : RawVision :=
  { h := 1, w := 1, brightness := 100, contrast := 0, edgeCount := 0,
    colorData := some { uniqueColors := 1, saturationMean := 0, hueVar := 0,
                        dominantColorCount := 1 },
    textContours := [], lineCount := none, circleArea := none,
    rectContours := [], corrH := none, corrV := none, scatterCount := none }

/-- Raw vision outputs of a 10×10 uniform black grayscale image: every
detector pass empty and the constant-image correlation is NaN. -/
def rawUniformGray : RawVision :=
  { h := 10, w := 10, brightness := 0, contrast := 0, edgeCount := 0,
    colorData := none,
    textContours := [], lineCount := none, circleArea := none,
    rectContours := [], corrH := none, corrV := none, scatterCount := none }

/-- A feature vector satisfying the conditions of rule 1 and rule 2 at
once. -/
def fvBoth : FeatureVector :=
  { aspectRat := 1, brightness := 0, contrast := 0, edgeDensity := 0,
    colorDiversity := 0, textRat := 0, lineDensity := 0, circleRat := 0.4,
    rectRat := 0.5, symmetryH := 0, symmetryV := 0, dominantColorCount := 1,
    saturationMean := 0, hueVar := 0 }

/-- The categories both strategies can output (the rule-based outputs other
than `diagram`, which the keyword table does not contain). -/
def sharedCategories : List String :=
  ["bar_chart", "pie_chart", "line_graph", "scatter_plot", "flowchart",
   "scientific_diagram", "map", "table", "photograph"]

/-- All detector passes empty: what the vision primitives return on a 1×1
or uniform black image (no gradient, no Hough hits, no contours, NaN
correlations). -/
def zeroDetect (rv : RawVision) : Prop :=
  rv.edgeCount = 0 ∧ rv.textContours = [] ∧ rv.rectContours = [] ∧
  rv.lineCount = none ∧ rv.circleArea = none ∧ rv.corrH = none ∧
  rv.corrV = none ∧ rv.scatterCount = none

/-! ### Helper lemmas -/

/-- The fold inside `maxPair` returns an element of `x :: xs` whose score
bounds every element's score (Python `max` keeps the earliest maximum). -/
theorem maxFold_spec (xs : List (String × ℕ)) :
    ∀ x : String × ℕ,
      (xs.foldl (fun b a => if a.2 > b.2 then a else b) x) ∈ x :: xs ∧
      ∀ q ∈ x :: xs, q.2 ≤ (xs.foldl (fun b a => if a.2 > b.2 then a else b) x).2 := by
  induction xs with
  | nil =>
      intro x
      refine ⟨by simp, ?_⟩
      intro q hq
      simp only [List.foldl_nil]
      simp only [List.mem_singleton] at hq
      exact hq ▸ le_refl _
  | cons a as ih =>
      intro x
      have hstep : (if a.2 > x.2 then a else x) = a ∨ (if a.2 > x.2 then a else x) = x := by
        split_ifs <;> simp
      have hx2 : x.2 ≤ (if a.2 > x.2 then a else x).2 := by
        split_ifs with h
        · exact le_of_lt h
        · exact le_refl _
      have ha2 : a.2 ≤ (if a.2 > x.2 then a else x).2 := by
        split_ifs with h
        · exact le_refl _
        · exact le_of_not_lt h
      obtain ⟨hmem, hle⟩ := ih (if a.2 > x.2 then a else x)
      constructor
      · simp only [List.foldl_cons]
        rcases List.mem_cons.mp hmem with h | h
        · rcases hstep with hs | hs <;> rw [h, hs] <;> simp
        · simp [h]
      · intro q hq
        simp only [List.foldl_cons]
        have hhead : (if a.2 > x.2 then a else x).2 ≤
            (as.foldl (fun b a => if a.2 > b.2 then a else b)
              (if a.2 > x.2 then a else x)).2 :=
          hle _ (List.mem_cons_self _ _)
        rcases List.mem_cons.mp hq with h | h
        · subst h
          exact le_trans hx2 hhead
        · rcases List.mem_cons.mp h with h2 | h2
          · subst h2
            exact le_trans ha2 hhead
          · exact hle q (List.mem_cons_of_mem _ h2)

/-- `maxPair` returns a member of maximal score. -/
theorem maxPair_spec (l : List (String × ℕ)) (p : String × ℕ)
    (h : maxPair l = some p) : p ∈ l ∧ ∀ q ∈ l, q.2 ≤ p.2 := by
  cases l with
  | nil => simp [maxPair] at h
  | cons x xs =>
      simp only [maxPair, Option.some.injEq] at h
      obtain ⟨hmem, hle⟩ := maxFold_spec xs x
      exact ⟨h ▸ hmem, h ▸ hle⟩

/-- The `(classification, confidence)` pair of the visual fallback is one
of its four literal outcomes. -/
theorem visualPick_cases (m : ImgMeta) :
    visualPick m = ("photograph", 0.6) ∨ visualPick m = ("timeline", 0.5) ∨
    visualPick m = ("chart_other", 0.5) ∨ visualPick m = ("diagram_other", 0.4) := by
  rcases m with ⟨mh, mw, mco, mbr⟩
  cases mco with
  | none => simp [visualPick]
  | some c =>
      simp only [visualPick]
      split_ifs <;> simp

/-- The internal confidence of `_rule_based_classification` is one of its
four literal values. -/
theorem ruleConf_cases (f : FeatureVector) (b : Bool) :
    (ruleBasedClassification f b).2 = 0.8 ∨ (ruleBasedClassification f b).2 = 0.7 ∨
    (ruleBasedClassification f b).2 = 0.6 ∨ (ruleBasedClassification f b).2 = 0.4 := by
  unfold ruleBasedClassification
  split_ifs <;> simp

/-- Every non-raising outcome of `_classify_from_description` carries a
confidence in `[0.3, 0.95]`. -/
theorem freeResultConf (d : Option String) (m : ImgMeta) (r : FreeResult)
    (h : classifyFromDescription d m = Except.ok r) :
    0.3 ≤ r.confidence ∧ r.confidence ≤ 0.95 := by
  cases d with
  | none => simp [classifyFromDescription] at h
  | some s =>
      simp only [classifyFromDescription] at h
      split at h
      · rename_i best heq
        cases h
        constructor
        · refine le_min (by norm_num) ?_
          have h9 : (0 : ℚ) ≤ (best.2 : ℚ) / 20 := by positivity
          linarith
        · exact min_le_left _ _
      · cases h
        have hv := visualPick_cases m
        have hc : (classifyByVisualAnalysis m s).confidence = (visualPick m).2 := rfl
        rcases hv with h | h | h | h <;> rw [hc, h] <;> norm_num

/-! ### Claim theorems -/

/-- C1: `_rule_based_classification` is exactly the spec's ordered
first-match-wins ten-rule decision list with the stated categories and
confidences, and an input satisfying both rule 1 and rule 2 classifies as
`pie_chart` with confidence 0.8. -/
theorem rule_policy_first_match_c1 :
    (∀ (f : FeatureVector) (b : Bool),
      ruleBasedClassification f b = firstMatchEval specDecisionList f b) ∧
    (∀ (f : FeatureVector) (b : Bool), f.circleRat > 0.3 → f.rectRat > 0.4 →
      f.textRat < 0.3 → ruleBasedClassification f b = ("pie_chart", 0.8)) := by
  constructor
  · intro f b
    simp only [specDecisionList, firstMatchEval, ruleBasedClassification,
      decide_eq_true_eq]
  · intro f b h1 _ _
    simp only [ruleBasedClassification, if_pos h1]

/-- Witness for C1 at a concrete feature vector meeting rule 1 and rule 2. -/
theorem rule_policy_first_match_c1_witness :
    ruleBasedClassification fvBoth false = ("pie_chart", 0.8) :=
  rule_policy_first_match_c1.2 fvBoth false (by with_unfolding_all decide)
    (by with_unfolding_all decide) (by with_unfolding_all decide)

/-- C3 counterexample: on the error path the `description` is
"Grayscale content, likely diagram or text", not the claim's exact string
"likely diagram or text". -/
theorem degraded_description_c3_cex :
    (ruleClassifyFigure (Except.error "boom")).description =
      "Grayscale content, likely diagram or text" ∧
    (ruleClassifyFigure (Except.error "boom")).description ≠
      "likely diagram or text" := by
  exact ⟨rfl, by decide⟩

/-- C3 (amended): `classify_figure` is total; every error outcome is
converted to the degraded dictionary — type "📐 Other Diagram", confidence
exactly 30, description "Grayscale content, likely diagram or text",
reasoning carrying the error text — and every non-error outcome is the rule
result. -/
theorem error_path_degraded_c3 :
    (∀ e : String,
      (ruleClassifyFigure (Except.error e)).type = "📐 Other Diagram" ∧
      (ruleClassifyFigure (Except.error e)).confidence = 30 ∧
      (ruleClassifyFigure (Except.error e)).description =
        "Grayscale content, likely diagram or text" ∧
      (ruleClassifyFigure (Except.error e)).reasoning =
        "Error during classification: " ++ e) ∧
    (∀ rv : RawVision,
      (ruleClassifyFigure (Except.ok rv)).type =
        mapToLabel (ruleBasedClassification (extractFeatures rv)
          (scatterFlag rv.scatterCount)).1 ∧
      (ruleClassifyFigure (Except.ok rv)).confidence =
        round1 ((ruleBasedClassification (extractFeatures rv)
          (scatterFlag rv.scatterCount)).2 * 100)) :=
  ⟨fun _ => ⟨rfl, rfl, rfl, rfl⟩, fun _ => ⟨rfl, rfl⟩⟩

/-- C6 counterexample: the two strategies render `pie_chart` with different
glyphs, so the `type` strings are not identical on a shared category. -/
theorem pie_glyph_differs_c6_cex :
    mapToLabel "pie_chart" = "🟢 Pie Chart" ∧
    renderFree "pie_chart" = "🥧 Pie Chart" ∧
    mapToLabel "pie_chart" ≠ renderFree "pie_chart" := by
  refine ⟨rfl, by decide, by decide⟩

/-- C6 (amended): on every category both strategies can produce, the Title
Case label parts of the rendered `type` agree, and the full strings (glyph
included) agree exactly on bar_chart, line_graph, table, photograph and
map, while the glyphs differ on pie_chart, scatter_plot, flowchart and
scientific_diagram. -/
theorem shared_labels_c6 :
    (∀ c ∈ sharedCategories,
      labelAfterGlyph (mapToLabel c) = labelAfterGlyph (renderFree c)) ∧
    (∀ c ∈ (["bar_chart", "line_graph", "table", "photograph", "map"] : List String),
      mapToLabel c = renderFree c) ∧
    (∀ c ∈ (["pie_chart", "scatter_plot", "flowchart",
        "scientific_diagram"] : List String),
      mapToLabel c ≠ renderFree c) := by
  refine ⟨?_, ?_, ?_⟩ <;> decide

/-- Witness for C6 at the concrete category `pie_chart`. -/
theorem shared_labels_c6_witness :
    labelAfterGlyph (mapToLabel "pie_chart") =
      labelAfterGlyph (renderFree "pie_chart") :=
  shared_labels_c6.1 "pie_chart" (by decide)

/-- C8: evaluating `FreeFigureClassifier.classify_figure` at an HTTP-200
reply whose first element carries `generated_text: null` — the description
becomes `None`, `.lower()` raises, and the returned
`_fallback_classification` dictionary has no `type` key. -/
theorem fallback_type_missing_c8 :
    classifyFigureFree respNullText neutralMeta = fallbackClassification ∧
    (classifyFigureFree respNullText neutralMeta).type = none ∧
    (classifyFigureFree respNullText neutralMeta).classification = "unknown" ∧
    (classifyFigureFree respNullText neutralMeta).confidence = 0.3 :=
  ⟨rfl, rfl, rfl, rfl⟩

/-- C10: an HTTP-200 reply whose first element has an empty or missing
`generated_text` hands the empty string straight to keyword scoring (no
local caption synthesis), every keyword score is zero, and the result is
the visual-only fallback. -/
theorem empty_caption_passthrough_c10 :
    ∀ m : ImgMeta,
      getImageDescription respEmptyText m = some "" ∧
      getImageDescription respMissingText m = some "" ∧
      positiveScores (strLower "") = [] ∧
      classifyFromDescription (some "") m =
        Except.ok (classifyByVisualAnalysis m "") :=
  fun _ => ⟨rfl, rfl, rfl, rfl⟩

/-- C2 counterexample: at the public boundary the caption-keyword
classifier returns the internal confidence 0.95 unscaled, not the
claim's 100-scaled, one-decimal-rounded value 95.0. -/
theorem free_confidence_unscaled_c2_cex :
    (classifyFigureFree respBar neutralMeta).confidence = 0.95 ∧
    round1 (0.95 * 100) = 95 ∧
    (0.95 : ℚ) ≠ 95 := by
  refine ⟨?_, ?_, ?_⟩ <;> with_unfolding_all decide

/-- C2 (amended): the rule-based classifier scales its internal `[0,1]`
confidence by 100 with one-decimal rounding and its public confidence lies
in `[0,100]`; the caption-keyword classifier returns its internal
confidence unscaled, always within `[0.3, 0.95]` (numerically inside
`[0,100]`, but on the 0–1 scale). -/
theorem confidence_bounds_c2 :
    (∀ inp : Except String RawVision,
      0 ≤ (ruleClassifyFigure inp).confidence ∧
      (ruleClassifyFigure inp).confidence ≤ 100) ∧
    (∀ rv : RawVision, (ruleClassifyFigure (Except.ok rv)).confidence =
      round1 ((ruleBasedClassification (extractFeatures rv)
        (scatterFlag rv.scatterCount)).2 * 100)) ∧
    (∀ (resp : Except String CaptionResponse) (m : ImgMeta),
      0.3 ≤ (classifyFigureFree resp m).confidence ∧
      (classifyFigureFree resp m).confidence ≤ 0.95) := by
  refine ⟨?_, fun rv => rfl, ?_⟩
  · intro inp
    cases inp with
    | error e =>
        constructor <;> simp [ruleClassifyFigure] <;> norm_num
    | ok rv =>
        have he : (ruleClassifyFigure (Except.ok rv)).confidence =
            round1 ((ruleBasedClassification (extractFeatures rv)
              (scatterFlag rv.scatterCount)).2 * 100) := rfl
        rcases ruleConf_cases (extractFeatures rv) (scatterFlag rv.scatterCount)
          with h | h | h | h <;> rw [he, h] <;>
          exact ⟨by with_unfolding_all decide, by with_unfolding_all decide⟩
  · intro resp m
    unfold classifyFigureFree
    split
    · exact ⟨by norm_num [fallbackClassification], by norm_num [fallbackClassification]⟩
    · rename_i r heq
      have hb := freeResultConf _ _ _ heq
      exact ⟨hb.1, hb.2⟩

/-- C4 counterexample: for the caption "A bar chart comparing sales" a
second category, `chart_other`, also matches ("chart", score 5), refuting
the claim's "no other keyword matches". -/
theorem chart_other_also_scores_c4_cex :
    positiveScores (strLower "A bar chart comparing sales") =
      [("bar_chart", 9), ("chart_other", 5)] ∧
    ("chart_other", 5) ∈ positiveScores (strLower "A bar chart comparing sales") ∧
    ("chart_other" : String) ≠ "bar_chart" := by
  refine ⟨by decide, by decide, by decide⟩

/-- C4 (amended): Score(category) sums matched keyword lengths and
zero-score categories are discarded (`positiveScores`); the winner is a
maximal adjusted score (the earliest on ties, as Python `max`); the
confidence is `min(0.95, 0.5 + score/20)`; and for the caption
"A bar chart comparing sales" on a bonus-free image the result is
`bar_chart` with raw score 9 and confidence 0.95 — even though
`chart_other` also scores 5. -/
theorem keyword_scoring_c4 :
    (∀ (l : List (String × ℕ)) (p : String × ℕ), maxPair l = some p →
      p ∈ l ∧ ∀ q ∈ l, q.2 ≤ p.2) ∧
    (∀ (d : String) (m : ImgMeta) (k : String) (v : ℕ),
      maxPair (enhanceScores m (positiveScores (strLower d))) = some (k, v) →
      classOf (classifyFromDescription (some d) m) = some k ∧
      confOf (classifyFromDescription (some d) m) =
        some (min 0.95 (0.5 + (v : ℚ) / 20))) ∧
    (keywordScore (strLower "A bar chart comparing sales")
      ["bar chart", "bar graph", "column chart", "histogram", "bars"] = 9 ∧
     classOf (classifyFromDescription (some "A bar chart comparing sales")
        neutralMeta) = some "bar_chart" ∧
     confOf (classifyFromDescription (some "A bar chart comparing sales")
        neutralMeta) = some 0.95) := by
  refine ⟨maxPair_spec, ?_, by decide, ?_, ?_⟩
  · intro d m k v h
    constructor
    · simp only [classifyFromDescription, h, classOf]
    · simp only [classifyFromDescription, h, confOf]
  · with_unfolding_all decide
  · with_unfolding_all decide

/-- Witness for C4 at the concrete caption "pie chart" on the bonus-free
image, whose adjusted maximum is `("pie_chart", 9)`. -/
theorem keyword_scoring_c4_witness :
    classOf (classifyFromDescription (some "pie chart") neutralMeta) =
      some "pie_chart" ∧
    confOf (classifyFromDescription (some "pie chart") neutralMeta) =
      some (min 0.95 (0.5 + ((9 : ℕ) : ℚ) / 20)) :=
  keyword_scoring_c4.2.1 "pie chart" neutralMeta "pie_chart" 9
    (by with_unfolding_all decide)

/-- C5 counterexample: on a wide grayscale image (aspect ratio 3 > 2) an
unmatched caption falls to `diagram_other` with confidence 0.4 — the code
checks aspect ratio only for color images — whereas the claimed cascade
(color diversity 0 not above 0.1, then aspect ratio > 2) yields timeline
with 0.5. -/
theorem gray_wide_fallback_c5_cex :
    classOf (classifyFromDescription (some "xyz unintelligible") wideGray) =
      some "diagram_other" ∧
    confOf (classifyFromDescription (some "xyz unintelligible") wideGray) =
      some 0.4 ∧
    (wideGray.w : ℚ) / wideGray.h > 2 ∧
    (some "diagram_other" : Option String) ≠ some "timeline" := by
  refine ⟨?_, ?_, ?_, ?_⟩ <;> with_unfolding_all decide

/-- C5 (amended): a zero-score caption routes to the visual-only fallback,
whose category is always in the closed enumeration; for color images the
cascade is as claimed (diversity > 0.1 → photograph 0.6, else aspect > 2 →
timeline 0.5, else aspect in [0.8, 1.2] → chart_other 0.5, else
diagram_other 0.4), while a grayscale image yields diagram_other 0.4
directly without consulting the aspect ratio. -/
theorem visual_fallback_c5 :
    ∀ (m : ImgMeta) (d : String),
    (positiveScores (strLower d) = [] →
      classifyFromDescription (some d) m =
        Except.ok (classifyByVisualAnalysis m d)) ∧
    ((classifyByVisualAnalysis m d).classification = (visualPick m).1 ∧
     (classifyByVisualAnalysis m d).confidence = (visualPick m).2) ∧
    (classifyByVisualAnalysis m d).classification ∈ categoryKeys ∧
    (∀ c : ColorMeta, m.color = some c →
      ((c.uniqueColors : ℚ) / ((m.h : ℚ) * m.w) > 0.1 →
        visualPick m = ("photograph", 0.6)) ∧
      (¬ (c.uniqueColors : ℚ) / ((m.h : ℚ) * m.w) > 0.1 →
        (m.w : ℚ) / m.h > 2 → visualPick m = ("timeline", 0.5)) ∧
      (¬ (c.uniqueColors : ℚ) / ((m.h : ℚ) * m.w) > 0.1 →
        ¬ (m.w : ℚ) / m.h > 2 →
        0.8 ≤ (m.w : ℚ) / m.h ∧ (m.w : ℚ) / m.h ≤ 1.2 →
        visualPick m = ("chart_other", 0.5)) ∧
      (¬ (c.uniqueColors : ℚ) / ((m.h : ℚ) * m.w) > 0.1 →
        ¬ (m.w : ℚ) / m.h > 2 →
        ¬ (0.8 ≤ (m.w : ℚ) / m.h ∧ (m.w : ℚ) / m.h ≤ 1.2) →
        visualPick m = ("diagram_other", 0.4))) ∧
    (m.color = none → visualPick m = ("diagram_other", 0.4)) := by
  intro m d
  refine ⟨?_, ⟨rfl, rfl⟩, ?_, ?_, ?_⟩
  · intro h
    simp only [classifyFromDescription, h, enhanceScores, List.map_nil, maxPair]
  · have hcl : (classifyByVisualAnalysis m d).classification = (visualPick m).1 := rfl
    rcases visualPick_cases m with h | h | h | h <;> rw [hcl, h] <;> decide
  · intro c hc
    refine ⟨?_, ?_, ?_, ?_⟩
    · intro h1
      simp only [visualPick, hc]
      rw [if_pos h1]
    · intro h1 h2
      simp only [visualPick, hc]
      rw [if_neg h1, if_pos h2]
    · intro h1 h2 h3
      simp only [visualPick, hc]
      rw [if_neg h1, if_neg h2, if_pos h3]
    · intro h1 h2 h3
      simp only [visualPick, hc]
      rw [if_neg h1, if_neg h2, if_neg h3]
  · intro h
    simp only [visualPick, h]

/-- Witness for C5 at the concrete 1×3 color image with diversity 1/3. -/
theorem visual_fallback_c5_witness :
    visualPick wideColor = ("photograph", 0.6) :=
  ((visual_fallback_c5 wideColor "x").2.2.2.1 ⟨1, 0⟩ rfl).1
    (by with_unfolding_all decide)

/-- C7: a network error, a non-success status, and a 200 reply with an
empty list all make `_get_image_description` return the locally
synthesized caption, and that caption is never the empty string, so the
keyword stage never receives an empty description on the
service-unavailable path. -/
theorem local_caption_nonempty_c7 :
    ∀ m : ImgMeta,
    (∀ e : String, getImageDescription (Except.error e) m =
      some (analyzeImageLocally m)) ∧
    (∀ r : CaptionResponse, r.status ≠ 200 →
      getImageDescription (Except.ok r) m = some (analyzeImageLocally m)) ∧
    (∀ r : CaptionResponse, r.status = 200 → r.body = [] →
      getImageDescription (Except.ok r) m = some (analyzeImageLocally m)) ∧
    analyzeImageLocally m ≠ "" := by
  intro m
  refine ⟨fun e => rfl, ?_, ?_, ?_⟩
  · intro r h
    simp only [getImageDescription, if_neg h]
  · intro r h1 h2
    simp only [getImageDescription, if_pos h1, h2]
  · rcases m with ⟨mh, mw, mco, mbr⟩
    cases mco <;>
      (simp only [analyzeImageLocally, localWords]; split_ifs <;> decide)

/-- Witness for C7 at the concrete non-success reply `resp500`. -/
theorem local_caption_nonempty_c7_witness :
    getImageDescription (Except.ok resp500) neutralMeta =
      some (analyzeImageLocally neutralMeta) :=
  (local_caption_nonempty_c7 neutralMeta).2.1 resp500 (by decide)

/-- On a feature vector whose detector-driven features are all zero, the
rule chain reduces to the photograph test on color diversity, else the
default. -/
theorem ruleOnZeroFeatures (fv : FeatureVector)
    (he : fv.edgeDensity = 0) (ht : fv.textRat = 0) (hl : fv.lineDensity = 0)
    (hc : fv.circleRat = 0) (hr : fv.rectRat = 0) (hsh : fv.symmetryH = 0)
    (hsv : fv.symmetryV = 0) :
    (fv.colorDiversity ≤ 0.1 →
      ruleBasedClassification fv false = ("diagram", 0.4)) ∧
    (fv.colorDiversity > 0.1 →
      ruleBasedClassification fv false = ("photograph", 0.6)) := by
  constructor
  · intro hcd
    unfold ruleBasedClassification
    rw [he, ht, hl, hc, hr, hsh, hsv]
    norm_num
    linarith
  · intro hcd
    unfold ruleBasedClassification
    rw [he, ht, hl, hc, hr, hsh, hsv]
    norm_num
    linarith

/-- C9 counterexample: a 1×1 RGB image (all detectors empty, one distinct
color) has color_diversity 1 > 0.1 and edge_density 0 < 0.1, so rule 6
fires and the classifier returns photograph with confidence 0.6 (public
confidence 60), not diagram 0.4 and not the error path. -/
theorem one_by_one_color_photograph_c9_cex :
    ruleBasedClassification (extractFeatures raw1x1Color)
      (scatterFlag raw1x1Color.scatterCount) = ("photograph", 0.6) ∧
    (ruleClassifyFigure (Except.ok raw1x1Color)).type = "📷 Photograph" ∧
    (ruleClassifyFigure (Except.ok raw1x1Color)).confidence = 60 ∧
    (("photograph", (0.6 : ℚ)) ≠ ("diagram", 0.4) ∧ (60 : ℚ) ≠ 40) := by
  refine ⟨?_, ?_, ?_, ?_, ?_⟩ <;> with_unfolding_all decide

/-- C9 (amended): for an image of positive size whose detector passes all
come back empty (as for a 1×1 or uniform black image), no per-pixel ratio
divides by zero (the pixel count is positive), NaN symmetry maps to 0, and
the rule-based classifier returns diagram 0.4 via the default branch when
the image is grayscale or its single-color diversity `1/(h·w)` is at most
0.1 — but a color image with fewer than 10 pixels (diversity above 0.1)
returns photograph 0.6 instead; the extraction error path keeps
confidence 30. -/
theorem degenerate_image_c9 :
    ∀ rv : RawVision, 1 ≤ rv.h → 1 ≤ rv.w → zeroDetect rv →
    (0 : ℚ) < (rv.h : ℚ) * rv.w ∧
    (extractFeatures rv).symmetryH = 0 ∧
    (extractFeatures rv).symmetryV = 0 ∧
    (rv.colorData = none →
      ruleBasedClassification (extractFeatures rv)
        (scatterFlag rv.scatterCount) = ("diagram", 0.4)) ∧
    (∀ c : ColorRaw, rv.colorData = some c → c.uniqueColors = 1 →
      ((1 : ℚ) / ((rv.h : ℚ) * rv.w) ≤ 0.1 →
        ruleBasedClassification (extractFeatures rv)
          (scatterFlag rv.scatterCount) = ("diagram", 0.4)) ∧
      ((1 : ℚ) / ((rv.h : ℚ) * rv.w) > 0.1 →
        ruleBasedClassification (extractFeatures rv)
          (scatterFlag rv.scatterCount) = ("photograph", 0.6))) ∧
    (∀ e : String, (ruleClassifyFigure (Except.error e)).confidence = 30) := by
  intro rv h1 w1 hz
  obtain ⟨hec, htc, hrc, hlc, hca, hch, hcv, hsc⟩ := hz
  have hhp : (0 : ℚ) < rv.h := by exact_mod_cast h1
  have hwp : (0 : ℚ) < rv.w := by exact_mod_cast w1
  have harea : (0 : ℚ) < (rv.h : ℚ) * rv.w := mul_pos hhp hwp
  have hfe : (extractFeatures rv).edgeDensity = 0 := by
    simp [extractFeatures, hec]
  have hft : (extractFeatures rv).textRat = 0 := by
    simp [extractFeatures, textRatOf, htc]
  have hfl : (extractFeatures rv).lineDensity = 0 := by
    simp [extractFeatures, lineDensityOf, hlc]
  have hfc : (extractFeatures rv).circleRat = 0 := by
    simp [extractFeatures, hca]
  have hfr : (extractFeatures rv).rectRat = 0 := by
    simp [extractFeatures, rectRatOf, hrc]
  have hfsh : (extractFeatures rv).symmetryH = 0 := by
    simp [extractFeatures, symOf, hch]
  have hfsv : (extractFeatures rv).symmetryV = 0 := by
    simp [extractFeatures, symOf, hcv]
  have hsf : scatterFlag rv.scatterCount = false := by rw [hsc]; rfl
  refine ⟨harea, hfsh, hfsv, ?_, ?_, fun e => rfl⟩
  · intro hnone
    have hcd : (extractFeatures rv).colorDiversity = 0 := by
      simp [extractFeatures, hnone]
    rw [hsf]
    exact (ruleOnZeroFeatures _ hfe hft hfl hfc hfr hfsh hfsv).1
      (by rw [hcd]; norm_num)
  · intro c hsome hc1
    have hcd : (extractFeatures rv).colorDiversity =
        (1 : ℚ) / ((rv.h : ℚ) * rv.w) := by
      simp [extractFeatures, hsome, hc1]
    constructor
    · intro hle
      rw [hsf]
      exact (ruleOnZeroFeatures _ hfe hft hfl hfc hfr hfsh hfsv).1
        (by rw [hcd]; exact hle)
    · intro hgt
      rw [hsf]
      exact (ruleOnZeroFeatures _ hfe hft hfl hfc hfr hfsh hfsv).2
        (by rw [hcd]; exact hgt)

/-- Witness for C9 at the concrete 10×10 uniform black grayscale image. -/
theorem degenerate_image_c9_witness :
    ruleBasedClassification (extractFeatures rawUniformGray)
      (scatterFlag rawUniformGray.scatterCount) = ("diagram", 0.4) :=
  (degenerate_image_c9 rawUniformGray (by decide) (by decide)
    ⟨rfl, rfl, rfl, rfl, rfl, rfl, rfl, rfl⟩).2.2.2.1 rfl
